import Mathlib

/-
Verification of the video-to-notes upload/poll/generate orchestration.

The page module (the client orchestrator) is embedded over lists of
characters: its string helpers, the defensive response parser, the backoff
polling loop and the submit flow.  The streaming POST route's source
preparation is embedded separately.  Remote behaviour (upload result,
successive status responses, generation text) is supplied as an explicit
script; network transport is assumed to answer, since no claim concerns
transport-level failures.
-/

/-- Strings are modelled as lists of characters. -/
abbrev Str := List Char

/-- Converts a Lean string literal to the character-list model. -/
def strChars (s : String) : Str := s.toList

/-- Whitespace characters removed by the JavaScript trim and matched by the
regex whitespace class, restricted to the ASCII range exercised here. -/
def isJsWs (c : Char) : Bool :=
  c = ' ' || c = '\t' || c = '\n' || c = '\r' || c = '\x0b' || c = '\x0c'

/-- Whitespace accepted between JSON tokens. -/
def isJsonWs (c : Char) : Bool :=
  c = ' ' || c = '\t' || c = '\n' || c = '\r'

/-- JavaScript trim modelled on character lists: drop whitespace from both
ends. -/
def trimL (l : Str) : Str :=
  ((l.dropWhile isJsWs).reverse.dropWhile isJsWs).reverse

/-- Whether the second list starts with the first, as String.startsWith. -/
def startsWithL : Str → Str → Bool
  | [], _ => true
  | _ :: _, [] => false
  | p :: ps, c :: cs => p = c && startsWithL ps cs

/-- JavaScript split on a newline character, keeping empty segments. -/
def splitOnNl : Str → List Str
  | [] => [[]]
  | c :: rest =>
    if c = '\n' then [] :: splitOnNl rest
    else
      match splitOnNl rest with
      | [] => [[c]]
      | seg :: segs => (c :: seg) :: segs

/-- Index of the first occurrence of a character, as String.indexOf. -/
def idxOf (c : Char) : Str → Option Nat
  | [] => none
  | x :: rest => if x = c then some 0 else (idxOf c rest).map (· + 1)

/-- Index of the last occurrence of a character, as String.lastIndexOf. -/
def lastIdxOf (c : Char) (l : Str) : Option Nat :=
  (idxOf c l.reverse).map (fun k => l.length - 1 - k)

/-- String.slice from index i up to (excluding) index j. -/
def sliceL (l : Str) (i j : Nat) : Str := (l.take j).drop i

/-- JSON values produced by a strict JSON parse.  Numbers keep their source
lexeme: no claim below depends on numeric valuation, only on whether a text
parses at all. -/
inductive Json where
  | null
  | bool (b : Bool)
  | num (lexeme : Str)
  | str (s : Str)
  | arr (elems : List Json)
  | obj (fields : List (Str × Json))

/-- Value of a hexadecimal digit. -/
def hexVal (c : Char) : Option Nat :=
  if '0' ≤ c ∧ c ≤ '9' then some (c.toNat - '0'.toNat)
  else if 'a' ≤ c ∧ c ≤ 'f' then some (c.toNat - 'a'.toNat + 10)
  else if 'A' ≤ c ∧ c ≤ 'F' then some (c.toNat - 'A'.toNat + 10)
  else none

mutual

/-- Body of a JSON string after the opening quote: returns the decoded
characters and the remainder after the closing quote. -/
def parseStringBody : Str → Option (Str × Str)
  | [] => none
  | '"' :: rest => some ([], rest)
  | '\\' :: esc => parseEscape esc
  | c :: rest =>
    if c.toNat < 32 then none
    else (parseStringBody rest).map (fun r => (c :: r.1, r.2))

/-- Decodes one escape sequence inside a JSON string. -/
def parseEscape : Str → Option (Str × Str)
  | '"' :: r => (parseStringBody r).map (fun p => ('"' :: p.1, p.2))
  | '\\' :: r => (parseStringBody r).map (fun p => ('\\' :: p.1, p.2))
  | '/' :: r => (parseStringBody r).map (fun p => ('/' :: p.1, p.2))
  | 'b' :: r => (parseStringBody r).map (fun p => ('\x08' :: p.1, p.2))
  | 'f' :: r => (parseStringBody r).map (fun p => ('\x0c' :: p.1, p.2))
  | 'n' :: r => (parseStringBody r).map (fun p => ('\n' :: p.1, p.2))
  | 'r' :: r => (parseStringBody r).map (fun p => ('\r' :: p.1, p.2))
  | 't' :: r => (parseStringBody r).map (fun p => ('\t' :: p.1, p.2))
  | 'u' :: h1 :: h2 :: h3 :: h4 :: r =>
    match hexVal h1, hexVal h2, hexVal h3, hexVal h4 with
    | some a, some b, some c, some d =>
      (parseStringBody r).map
        (fun p => (Char.ofNat (((a * 16 + b) * 16 + c) * 16 + d) :: p.1, p.2))
    | _, _, _, _ => none
  | _ => none

end

/-- Longest leading run of decimal digits and the remainder. -/
def digitsSplit (l : Str) : Str × Str :=
  (l.takeWhile Char.isDigit, l.dropWhile Char.isDigit)

/-- Integer part of a JSON number: a single zero or a nonzero digit followed
by digits. -/
def parseIntPart : Str → Option (Str × Str)
  | [] => none
  | '0' :: rest =>
    match rest with
    | c :: _ => if c.isDigit then none else some (['0'], rest)
    | [] => some (['0'], [])
  | c :: rest =>
    if c.isDigit then
      let d := digitsSplit rest
      some (c :: d.1, d.2)
    else none

/-- Optional fraction part of a JSON number. -/
def parseFracPart : Str → Option (Str × Str)
  | '.' :: rest =>
    let d := digitsSplit rest
    if d.1 = [] then none else some ('.' :: d.1, d.2)
  | l => some ([], l)

/-- Optional exponent part of a JSON number. -/
def parseExpPart : Str → Option (Str × Str)
  | [] => some ([], [])
  | c :: rest =>
    if c = 'e' ∨ c = 'E' then
      let sr : Str × Str :=
        match rest with
        | s :: r2 => if s = '+' ∨ s = '-' then ([s], r2) else ([], rest)
        | [] => ([], [])
      let d := digitsSplit sr.2
      if d.1 = [] then none else some (c :: sr.1 ++ d.1, d.2)
    else some ([], c :: rest)

/-- A JSON number starting at the given position, keeping its lexeme. -/
def parseNumberAt (l : Str) : Option (Json × Str) :=
  let split : Str × Str := match l with | '-' :: r => (['-'], r) | _ => ([], l)
  match parseIntPart split.2 with
  | none => none
  | some (ip, r1) =>
    match parseFracPart r1 with
    | none => none
    | some (fp, r2) =>
      match parseExpPart r2 with
      | none => none
      | some (ep, r3) => some (.num (split.1 ++ ip ++ fp ++ ep), r3)

mutual

/-- One JSON value, fuelled; fuel is sized from the input in jsonParse. -/
def parseValue : Nat → Str → Option (Json × Str)
  | 0, _ => none
  | fuel + 1, l =>
    match l.dropWhile isJsonWs with
    | 'n' :: 'u' :: 'l' :: 'l' :: rest => some (.null, rest)
    | 't' :: 'r' :: 'u' :: 'e' :: rest => some (.bool true, rest)
    | 'f' :: 'a' :: 'l' :: 's' :: 'e' :: rest => some (.bool false, rest)
    | '"' :: rest => (parseStringBody rest).map (fun p => (.str p.1, p.2))
    | '[' :: rest =>
      match rest.dropWhile isJsonWs with
      | ']' :: r2 => some (.arr [], r2)
      | l2 => (parseElems fuel l2).map (fun p => (.arr p.1, p.2))
    | '\x7b' :: rest =>
      match rest.dropWhile isJsonWs with
      | '\x7d' :: r2 => some (.obj [], r2)
      | l2 => (parseMembers fuel l2).map (fun p => (.obj p.1, p.2))
    | l1 => parseNumberAt l1

/-- Comma-separated array elements up to the closing bracket. -/
def parseElems : Nat → Str → Option (List Json × Str)
  | 0, _ => none
  | fuel + 1, l =>
    match parseValue fuel l with
    | none => none
    | some (v, r) =>
      match r.dropWhile isJsonWs with
      | ',' :: r2 => (parseElems fuel r2).map (fun p => (v :: p.1, p.2))
      | ']' :: r2 => some ([v], r2)
      | _ => none

/-- Comma-separated object members up to the closing brace. -/
def parseMembers : Nat → Str → Option (List (Str × Json) × Str)
  | 0, _ => none
  | fuel + 1, l =>
    match l with
    | '"' :: rest =>
      match parseStringBody rest with
      | none => none
      | some (key, r1) =>
        match r1.dropWhile isJsonWs with
        | ':' :: r2 =>
          match parseValue fuel r2 with
          | none => none
          | some (v, r3) =>
            match r3.dropWhile isJsonWs with
            | ',' :: r4 =>
              (parseMembers fuel (r4.dropWhile isJsonWs)).map
                (fun p => ((key, v) :: p.1, p.2))
            | '\x7d' :: r4 => some ([(key, v)], r4)
            | _ => none
        | _ => none
    | _ => none

end

/-- JavaScript JSON.parse modelled as a strict parser: yields a value
exactly when the whole text, up to surrounding whitespace, is valid JSON. -/
def jsonParse (l : Str) : Option Json :=
  match parseValue (2 * l.length + 4) l with
  | some (v, rest) => if rest.dropWhile isJsonWs = [] then some v else none
  | none => none

mutual

/-- JavaScript String(x) conversion for parsed JSON values.  Number lexemes
are rendered as written; no claim below converts numeric notes. -/
def jsToString : Json → Str
  | .null => strChars "null"
  | .bool true => strChars "true"
  | .bool false => strChars "false"
  | .num lexeme => lexeme
  | .str s => s
  | .arr elems => joinComma elems
  | .obj _ => strChars "[object Object]"

/-- Array toString: elements joined with commas, null rendered empty. -/
def joinComma : List Json → Str
  | [] => []
  | [Json.null] => []
  | [x] => jsToString x
  | Json.null :: xs => ',' :: joinComma xs
  | x :: xs => jsToString x ++ ',' :: joinComma xs

end

/-- Last binding for a key among parsed object fields; JSON.parse keeps the
last duplicate. -/
def lookupLastField (fields : List (Str × Json)) (key : Str) : Option Json :=
  match fields with
  | [] => none
  | (k, v) :: rest =>
    match lookupLastField rest key with
    | some w => some w
    | none => if k = key then some v else none

/-- JavaScript member access on a parsed JSON value: objects yield their
binding, everything else yields undefined (none).  Access on null throws
and is handled at the use site. -/
def jsGetField (j : Json) (key : Str) : Option Json :=
  match j with
  | .obj fields => lookupLastField fields key
  | _ => none

/-- Lowercases an ASCII letter, used for the case-insensitive fence tag. -/
def lcChar (c : Char) : Char :=
  if 'A' ≤ c ∧ c ≤ 'Z' then Char.ofNat (c.toNat + 32) else c

/-- Three backticks. -/
def fenceTicks : Str := strChars "```"

/-- Three backticks followed by the json tag. -/
def fenceJsonTag : Str := strChars "```json"

/-- The page's stripCodeFence: trim, drop a leading fence (with an optional
case-insensitive json tag), drop a trailing fence, trim again. -/
def stripCodeFence (rawText : Str) : Str :=
  let t := trimL rawText
  let t1 :=
    if (t.take 7).map lcChar = fenceJsonTag then t.drop 7
    else if t.take 3 = fenceTicks then t.drop 3
    else t
  let t2 :=
    if t1.length ≥ 3 ∧ t1.drop (t1.length - 3) = fenceTicks then
      t1.take (t1.length - 3)
    else t1
  trimL t2

/-- Characters stripped from the front of each note line: dash, bullet and
whitespace, as in the leading-bullet regex. -/
def isBulletLead (c : Char) : Bool := c = '-' || c = '•' || isJsWs c

/-- The page's normalizeNotes: arrays map String conversion, trim, and drop
empties; strings split on newlines, strip leading bullet markers, trim and
drop empties; anything else yields no notes. -/
def normalizeNotes (notes : Option Json) : List Str :=
  match notes with
  | some (.arr elems) =>
    (elems.map (fun note => trimL (jsToString note))).filter (fun s => !s.isEmpty)
  | some (.str s) =>
    ((splitOnNl s).map (fun line => trimL (line.dropWhile isBulletLead))).filter
      (fun s => !s.isEmpty)
  | _ => []

/-- Result of the page's tryParse helper. -/
structure GeminiParsed where
  transcript : Str
  notes : List Str
deriving DecidableEq, Repr

/-- The page's tryParse: JSON.parse the text, then read transcript and notes
with JavaScript member-access semantics.  Member access on null throws, and
calling trim on a non-string transcript throws; both surface as none, like
the JSON.parse failure itself, because the caller catches every throw. -/
def tryParse (text : Str) : Option GeminiParsed :=
  match jsonParse text with
  | none => none
  | some .null => none
  | some j =>
    let notes := normalizeNotes (jsGetField j (strChars "notes"))
    match jsGetField j (strChars "transcript") with
    | none => some ⟨[], notes⟩
    | some .null => some ⟨[], notes⟩
    | some (.str s) => some ⟨trimL s, notes⟩
    | some _ => none

/-- Slice between the first opening brace and the last closing brace, when
the first strictly precedes the last. -/
def braceExtract (cleanedText : Str) : Option Str :=
  match idxOf '\x7b' cleanedText, lastIdxOf '\x7d' cleanedText with
  | some firstBrace, some lastBrace =>
    if firstBrace < lastBrace then
      some (sliceL cleanedText firstBrace (lastBrace + 1))
    else none
  | _, _ => none

/-- Final result of the page's parseGeminiText. -/
structure ParsedResponse where
  transcript : Str
  notes : List Str
  rawResponse : Option Str
deriving DecidableEq, Repr

/-- The page's parseGeminiText: strip fences, try a structured parse, then a
parse of the first-brace-to-last-brace slice, then fall back to the trimmed
cleaned text with empty notes and the raw-response copy.  Total by
construction: every failure path lands in the fallback value. -/
def parseGeminiText (rawText : Str) : ParsedResponse :=
  let cleanedText := stripCodeFence rawText
  match tryParse cleanedText with
  | some r => ⟨r.transcript, r.notes, none⟩
  | none =>
    match braceExtract cleanedText with
    | some extracted =>
      match tryParse extracted with
      | some r => ⟨r.transcript, r.notes, none⟩
      | none => ⟨trimL cleanedText, [], some (trimL cleanedText)⟩
    | none => ⟨trimL cleanedText, [], some (trimL cleanedText)⟩

/-- Remote file handle as the page sees it.  Fields absent from the remote
JSON surface as none or as the empty string, matching the JavaScript
falsiness checks on them. -/
structure GeminiFile where
  name : Str
  uri : Str
  mimeType : Str
  state : Option Str
  errorMessage : Option Str
deriving DecidableEq, Repr

/-- Activity events appended by the submit flow, one constructor per phase
tag of the activity log.  The fileActive and generateReceived phases exist
in the protocol (the page's label table knows them) yet no code path in the
page emits them. -/
inductive Event where
  | uploadStart
  | uploadComplete
  | fileProcessing (attempt : Nat) (delayMs : Nat)
  | fileActive
  | generateStart
  | generateReceived
deriving DecidableEq, Repr

/-- Terminal errors of the submit flow, one constructor per throw site. -/
inductive RunError where
  | missingKey
  | missingInput
  | invalidUrl
  | unsupportedType (mimeType : Str)
  | tooLarge
  | missingMetadata
  | remoteProcessingFailed (stateObserved : Str) (message : Str)
  | missingContent
deriving DecidableEq, Repr

/-- Initial polling delay in milliseconds. -/
def FILE_ACTIVE_POLL_INITIAL_MS : Nat := 100

/-- Maximum polling delay in milliseconds. -/
def FILE_ACTIVE_POLL_MAX_MS : Nat := 20000

/-- Result of driving the polling loop on a scripted response sequence. -/
inductive PollOutcome where
  | pending
  | failed (e : RunError)
  | active (f : GeminiFile)
deriving DecidableEq, Repr

/-- The JavaScript test file.state and file.state differing from
PROCESSING: true exactly when a state string is present, non-empty and not
PROCESSING. -/
def stateIsUnexpected (st : Option Str) : Bool :=
  match st with
  | some s => !s.isEmpty && decide (s ≠ strChars "PROCESSING")
  | none => false

/-- The page's waitForGeminiFileActive driven by a scripted sequence of
status responses: ACTIVE returns the handle with no event, a present
non-empty state other than PROCESSING fails with the observed state and
remote message, anything else emits a file-processing event, doubles the
delay with the 20000 cap, increments the attempt and polls on.  An
exhausted script leaves the loop pending, still polling. -/
def waitForGeminiFileActive : List GeminiFile → Nat → Nat → List Event × PollOutcome
  | [], _, _ => ([], .pending)
  | f :: rest, delayMs, attempt =>
    if f.state = some (strChars "ACTIVE") then ([], .active f)
    else if stateIsUnexpected f.state then
      ([], .failed (.remoteProcessingFailed (f.state.getD [])
        (f.errorMessage.getD (strChars "Unknown error"))))
    else
      let next := waitForGeminiFileActive rest
        (min (delayMs * 2) FILE_ACTIVE_POLL_MAX_MS) (attempt + 1)
      (Event.fileProcessing attempt delayMs :: next.1, next.2)

/-- Source shape recorded in the page's result. -/
inductive SourceTag where
  | youtube (videoUrl : Str)
  | upload (fileName : Str)
deriving DecidableEq, Repr

/-- Final result of one submit run. -/
structure RunResult where
  source : SourceTag
  transcript : Str
  notes : List Str
  rawResponse : Option Str
deriving DecidableEq, Repr

/-- Outcome of one submit run on a scripted remote: pending when the script
ran out mid-poll. -/
inductive RunOutcome where
  | pending
  | failed (e : RunError)
  | done (r : RunResult)
deriving DecidableEq, Repr

/-- The browser File as the page reads it: name, declared MIME type and
byte size. -/
structure FileInfo where
  name : Str
  type : Str
  size : Nat
deriving DecidableEq, Repr

/-- Form state at submit time: API key, URL field and the chosen file. -/
structure SubmitInput where
  apiKey : Str
  videoUrl : Str
  file : Option FileInfo
deriving DecidableEq, Repr

/-- Scripted remote behaviour: the handle returned by the upload, the
successive status responses, and the text of the generation response. -/
structure RemoteScript where
  upload : GeminiFile
  polls : List GeminiFile
  generateText : Str
deriving DecidableEq, Repr

/-- Characters allowed after the first letter of a URI scheme. -/
def isSchemeChar (c : Char) : Bool :=
  c.isAlpha || c.isDigit || c = '+' || c = '-' || c = '.'

/-- Simplified model of the URL-constructor check shared by both submit
handlers: the candidate must open with a scheme whose lowercased name
begins with http, mirroring the protocol startsWith http test on a
successfully constructed URL. -/
def isValidHttpUrl (u : Str) : Bool :=
  match u with
  | [] => false
  | c :: rest =>
    if c.isAlpha then
      let body := rest.takeWhile isSchemeChar
      match rest.drop body.length with
      | ':' :: _ => startsWithL (strChars "http") ((c :: body).map lcChar)
      | _ => false
    else false

/-- Generation tail of the submit flow: an empty response text throws the
missing-content error, otherwise the raw text is parsed into the result. -/
def genOutcome (source : SourceTag) (script : RemoteScript) : RunOutcome :=
  if script.generateText = [] then .failed .missingContent
  else
    let parsed := parseGeminiText script.generateText
    .done ⟨source, parsed.transcript, parsed.notes, parsed.rawResponse⟩

/-- Upload branch of the submit flow: MIME-type check, size check, upload
(scripted), metadata check, conditional polling, then the generation
request; each activity event is recorded where the page appends it. -/
def filePhase (f : FileInfo) (script : RemoteScript) : List Event × RunOutcome :=
  if ¬ startsWithL (strChars "video/") f.type then
    ([], .failed (.unsupportedType f.type))
  else if f.size > 2 * 1024 * 1024 * 1024 then
    ([], .failed .tooLarge)
  else
    let up := script.upload
    if up.uri = [] ∨ up.mimeType = [] ∨ up.name = [] then
      ([Event.uploadStart], .failed .missingMetadata)
    else if up.state = some (strChars "PROCESSING") then
      let poll := waitForGeminiFileActive script.polls FILE_ACTIVE_POLL_INITIAL_MS 1
      match poll.2 with
      | .pending => (Event.uploadStart :: Event.uploadComplete :: poll.1, .pending)
      | .failed e => (Event.uploadStart :: Event.uploadComplete :: poll.1, .failed e)
      | .active _ =>
        (Event.uploadStart :: Event.uploadComplete :: poll.1 ++ [Event.generateStart],
          genOutcome (.upload f.name) script)
    else
      ([Event.uploadStart, Event.uploadComplete, Event.generateStart],
        genOutcome (.upload f.name) script)

/-- The page's handleSubmit: key check, missing-input check, then the URL
branch takes precedence over the file branch; the first component collects
the activity events in emission order. -/
def handleSubmit (inp : SubmitInput) (script : RemoteScript) : List Event × RunOutcome :=
  if trimL inp.apiKey = [] then ([], .failed .missingKey)
  else if trimL inp.videoUrl = [] ∧ inp.file = none then ([], .failed .missingInput)
  else
    let trimmedUrl := trimL inp.videoUrl
    if trimmedUrl ≠ [] then
      if ¬ isValidHttpUrl trimmedUrl then ([], .failed .invalidUrl)
      else ([], genOutcome (.youtube trimmedUrl) script)
    else
      match inp.file with
      | some f => filePhase f script
      | none => ([], .failed .missingInput)

/-- Source union produced by the streaming POST route. -/
inductive PostSource where
  | youtube (videoUrl : Str)
  | upload (fileName mimeType : Str) (sizeBytes : Nat)
deriving DecidableEq, Repr

/-- Size limit of the streaming POST route. -/
def MAX_UPLOAD_BYTES : Nat := 2 * 1024 * 1024 * 1024

/-- Source preparation of the streaming POST route: trim the url field,
prefer a present file over the url, validate MIME type then size, default
an empty type, and otherwise validate the url. -/
def preparePostSource (rawUrl : Option Str) (uploadFile : Option FileInfo) :
    Except RunError PostSource :=
  let videoUrl := (rawUrl.map trimL).getD []
  if videoUrl = [] ∧ uploadFile = none then .error .missingInput
  else
    match uploadFile with
    | some f =>
      if ¬ startsWithL (strChars "video/") f.type then .error (.unsupportedType f.type)
      else if f.size > MAX_UPLOAD_BYTES then .error .tooLarge
      else .ok (.upload f.name (if f.type = [] then strChars "video/mp4" else f.type) f.size)
    | none =>
      if isValidHttpUrl videoUrl then .ok (.youtube videoUrl) else .error .invalidUrl

/-- Backoff state iterate of the polling loop: delay 100 and attempt 1
initially, then the delay doubles with a 20000 cap and the attempt counter
increments after every unsuccessful poll. -/
def backoffIter : Nat → Nat × Nat
  | 0 => (FILE_ACTIVE_POLL_INITIAL_MS, 1)
  | n + 1 =>
    (min ((backoffIter n).1 * 2) FILE_ACTIVE_POLL_MAX_MS, (backoffIter n).2 + 1)

/-- Delay iterate from an arbitrary starting delay. -/
def delayIterFrom (d : Nat) : Nat → Nat
  | 0 => d
  | i + 1 => min (delayIterFrom d i * 2) FILE_ACTIVE_POLL_MAX_MS

/-- Status response still processing. -/
def procFile : GeminiFile :=
  ⟨strChars "files/demo", strChars "https://files/demo", strChars "video/mp4",
    some (strChars "PROCESSING"), none⟩

/-- Status response already active. -/
def activeFile : GeminiFile :=
  ⟨strChars "files/demo", strChars "https://files/demo", strChars "video/mp4",
    some (strChars "ACTIVE"), none⟩

/-- Status response with the state field absent. -/
def noStateFile : GeminiFile :=
  ⟨strChars "files/demo", strChars "https://files/demo", strChars "video/mp4",
    none, none⟩

/-- Upload handle that settled into the FAILED state. -/
def failedFile : GeminiFile :=
  ⟨strChars "files/demo", strChars "https://files/demo", strChars "video/mp4",
    some (strChars "FAILED"), some (strChars "codec not supported")⟩

/-- A small valid video file. -/
def sampleVideo : FileInfo := ⟨strChars "demo.mp4", strChars "video/mp4", 1048576⟩

/-- Generation response used by the sample scripts. -/
def sampleGenText : Str := strChars "\x7b\"transcript\":\"t\",\"notes\":[]\x7d"

/-- Script whose upload is immediately active. -/
def demoScript : RemoteScript := ⟨activeFile, [], sampleGenText⟩

/-- Script whose upload is processing, then polls processing and active. -/
def processingScript : RemoteScript := ⟨procFile, [procFile, activeFile], sampleGenText⟩

/-- Script whose upload settled into the FAILED state. -/
def failedUploadScript : RemoteScript := ⟨failedFile, [], sampleGenText⟩

/-- Submit input with only a file selected. -/
def submitUpload : SubmitInput := ⟨strChars "key", [], some sampleVideo⟩

/-- Submit input carrying both a URL and a file. -/
def submitBoth : SubmitInput :=
  ⟨strChars "key", strChars "https://example.com/v", some sampleVideo⟩

/-- Submit input with only a URL. -/
def submitRemote : SubmitInput := ⟨strChars "key", strChars "https://example.com/v", none⟩

/-- The fenced response of the spec example: a json-tagged fence around an
object whose notes field is a bulleted multi-line string. -/
def c7input : Str :=
  strChars "```json\n\x7b\"transcript\":\"x\",\"notes\":\"- one\\n- two\"\x7d\n```"

/-- A JSON object whose notes field is a multi-line bulleted string but
whose transcript field is a number, so member access makes trim throw. -/
def c7badInput : Str :=
  strChars "\x7b\"transcript\":5,\"notes\":\"- one\\n- two\"\x7d"

/-- A video payload of exactly 2 GiB. -/
def boundaryFile : FileInfo :=
  ⟨strChars "exact.mp4", strChars "video/mp4", 2 * 1024 * 1024 * 1024⟩

/-- An oversized non-video payload. -/
def bigPdf : FileInfo :=
  ⟨strChars "big.pdf", strChars "application/pdf", 3 * 1024 * 1024 * 1024⟩

/-- The head of a dropWhile result fails the predicate. -/
lemma dropWhile_head_not (p : Char → Bool) :
    ∀ (l : Str) (c : Char) (t : Str), l.dropWhile p = c :: t → p c = false := by
  intro l
  induction l with
  | nil => intro c t h; simp [List.dropWhile] at h
  | cons a rest ih =>
    intro c t h
    rw [List.dropWhile_cons] at h
    split at h
    · exact ih c t h
    · next hpa =>
      injection h with h1 _
      subst h1
      simpa using hpa

/-- Dropping a prefix twice with the same predicate is dropping it once. -/
lemma dropWhile_dropWhile (p : Char → Bool) (l : Str) :
    (l.dropWhile p).dropWhile p = l.dropWhile p := by
  induction l with
  | nil => rfl
  | cons a rest ih =>
    by_cases h : p a = true
    · simp [List.dropWhile_cons, h, ih]
    · simp [List.dropWhile_cons, h]

/-- A trimmed list has no leading whitespace left. -/
lemma trimFront_trimL (l : Str) : (trimL l).dropWhile isJsWs = trimL l := by
  unfold trimL
  rcases hAe : l.dropWhile isJsWs with _ | ⟨c, t⟩
  · simp
  · have hc : isJsWs c = false := dropWhile_head_not _ _ _ _ hAe
    rw [List.reverse_cons, List.dropWhile_append]
    split <;> simp [List.dropWhile_cons, hc]

/-- A trimmed list has no trailing whitespace left. -/
lemma trimBack_trimL (l : Str) : (trimL l).reverse.dropWhile isJsWs = (trimL l).reverse := by
  unfold trimL
  rw [List.reverse_reverse]
  exact dropWhile_dropWhile _ _

/-- Trimming is idempotent. -/
lemma trimL_idem (l : Str) : trimL (trimL l) = trimL l := by
  show (((trimL l).dropWhile isJsWs).reverse.dropWhile isJsWs).reverse = trimL l
  rw [trimFront_trimL, trimBack_trimL, List.reverse_reverse]

/-- The cleaned text is already trimmed, so trimming it again is the
identity. -/
lemma stripCodeFence_trimL (raw : Str) :
    trimL (stripCodeFence raw) = stripCodeFence raw := by
  simp only [stripCodeFence]
  exact trimL_idem _

/-- Polling step on an ACTIVE response: return the handle, no event. -/
lemma waitFor_cons_active (f : GeminiFile) (rest : List GeminiFile) (d a : Nat)
    (h : f.state = some (strChars "ACTIVE")) :
    waitForGeminiFileActive (f :: rest) d a = ([], .active f) := by
  unfold waitForGeminiFileActive
  rw [if_pos h]

/-- Polling step on a present, non-empty state other than ACTIVE and
PROCESSING: fail with the observed state and the remote message. -/
lemma waitFor_cons_failed (f : GeminiFile) (rest : List GeminiFile) (d a : Nat)
    (s : Str) (hstate : f.state = some s) (h1 : s ≠ []) (h2 : s ≠ strChars "ACTIVE")
    (h3 : s ≠ strChars "PROCESSING") :
    waitForGeminiFileActive (f :: rest) d a =
      ([], .failed (.remoteProcessingFailed s
        (f.errorMessage.getD (strChars "Unknown error")))) := by
  unfold waitForGeminiFileActive
  rw [if_neg (by simp [hstate, h2]), if_pos (by simp [stateIsUnexpected, hstate, h1, h3])]
  simp [hstate]

/-- Polling step on a PROCESSING response: emit the file-processing event
and continue with doubled capped delay and incremented attempt. -/
lemma waitFor_cons_processing (f : GeminiFile) (rest : List GeminiFile) (d a : Nat)
    (h : f.state = some (strChars "PROCESSING")) :
    waitForGeminiFileActive (f :: rest) d a =
      (Event.fileProcessing a d ::
          (waitForGeminiFileActive rest (min (d * 2) FILE_ACTIVE_POLL_MAX_MS) (a + 1)).1,
        (waitForGeminiFileActive rest (min (d * 2) FILE_ACTIVE_POLL_MAX_MS) (a + 1)).2) := by
  rw [waitForGeminiFileActive]
  rw [if_neg (by simp [h]; decide), if_neg (by simp [stateIsUnexpected, h])]

/-- Polling step on a response with no state: the falsy check keeps the loop
polling exactly as a PROCESSING response would. -/
lemma waitFor_cons_nostate (f : GeminiFile) (rest : List GeminiFile) (d a : Nat)
    (h : f.state = none) :
    waitForGeminiFileActive (f :: rest) d a =
      (Event.fileProcessing a d ::
          (waitForGeminiFileActive rest (min (d * 2) FILE_ACTIVE_POLL_MAX_MS) (a + 1)).1,
        (waitForGeminiFileActive rest (min (d * 2) FILE_ACTIVE_POLL_MAX_MS) (a + 1)).2) := by
  rw [waitForGeminiFileActive]
  rw [if_neg (by simp [h]), if_neg (by simp [stateIsUnexpected, h])]

/-- The polling loop never fails with the size error: its only failure is
the remote-processing one. -/
lemma waitFor_no_tooLarge :
    ∀ (polls : List GeminiFile) (d a : Nat),
      (waitForGeminiFileActive polls d a).2 ≠ PollOutcome.failed RunError.tooLarge := by
  intro polls
  induction polls with
  | nil => intro d a h; simp [waitForGeminiFileActive] at h
  | cons f rest ih =>
    intro d a h
    unfold waitForGeminiFileActive at h
    split at h
    · simp at h
    · split at h
      · simp at h
      · exact ih _ _ (by simpa using h)

/-- The generation tail never fails with the size error. -/
lemma genOutcome_no_tooLarge (src : SourceTag) (script : RemoteScript) :
    genOutcome src script ≠ RunOutcome.failed RunError.tooLarge := by
  unfold genOutcome
  split <;> simp

/-- With a non-empty key and a blank URL field, the submit flow reduces to
the file branch. -/
lemma handleSubmit_upload (key url : Str) (f : FileInfo) (script : RemoteScript)
    (hk : trimL key ≠ []) (hu : trimL url = []) :
    handleSubmit ⟨key, url, some f⟩ script = filePhase f script := by
  unfold handleSubmit
  simp [hk, hu]

/-- With a valid video file and a complete upload handle, the file branch
reduces to the conditional polling step followed by generation. -/
lemma filePhase_valid (f : FileInfo) (script : RemoteScript)
    (hv : startsWithL (strChars "video/") f.type = true)
    (hs : f.size ≤ 2 * 1024 * 1024 * 1024)
    (h1 : script.upload.uri ≠ []) (h2 : script.upload.mimeType ≠ [])
    (h3 : script.upload.name ≠ []) :
    filePhase f script =
      if script.upload.state = some (strChars "PROCESSING") then
        (let poll := waitForGeminiFileActive script.polls FILE_ACTIVE_POLL_INITIAL_MS 1
         match poll.2 with
         | .pending => (Event.uploadStart :: Event.uploadComplete :: poll.1, .pending)
         | .failed e => (Event.uploadStart :: Event.uploadComplete :: poll.1, .failed e)
         | .active _ =>
           (Event.uploadStart :: Event.uploadComplete :: poll.1 ++ [Event.generateStart],
             genOutcome (.upload f.name) script))
      else
        ([Event.uploadStart, Event.uploadComplete, Event.generateStart],
          genOutcome (.upload f.name) script) := by
  unfold filePhase
  have hs' : ¬ f.size > 2 * 1024 * 1024 * 1024 := by omega
  simp [hv, hs', h1, h2, h3]

/-- Shifting the starting delay by one doubling step commutes with the
iterate. -/
lemma delayIterFrom_shift (d : Nat) :
    ∀ i, delayIterFrom (min (d * 2) FILE_ACTIVE_POLL_MAX_MS) i = delayIterFrom d (i + 1) := by
  intro i
  induction i with
  | zero => rfl
  | succ k ih => simp only [delayIterFrom, ih]

/-- The delay component of the backoff iterate. -/
lemma backoffIter_delay : ∀ n, (backoffIter n).1 = delayIterFrom FILE_ACTIVE_POLL_INITIAL_MS n := by
  intro n
  induction n with
  | zero => rfl
  | succ k ih => simp only [backoffIter, delayIterFrom, ih]

/-- The attempt counter is one more than the number of unsuccessful polls. -/
lemma backoffIter_attempt : ∀ n, (backoffIter n).2 = n + 1 := by
  intro n
  induction n with
  | zero => rfl
  | succ k ih => simp only [backoffIter, ih]

/-- The delay never exceeds the 20000 cap. -/
lemma backoffIter_le : ∀ n, (backoffIter n).1 ≤ 20000 := by
  intro n
  cases n with
  | zero => decide
  | succ k =>
    simp only [backoffIter, FILE_ACTIVE_POLL_MAX_MS]
    exact min_le_right _ _

/-- The delay sequence never decreases. -/
lemma backoffIter_mono : ∀ n, (backoffIter n).1 ≤ (backoffIter (n + 1)).1 := by
  intro n
  have h := backoffIter_le n
  simp only [backoffIter, FILE_ACTIVE_POLL_MAX_MS]
  omega

/-- Event trace of the polling loop over a script of processing responses:
one file-processing event per response, with the attempt counter and the
doubling capped delay advancing in lockstep. -/
lemma waitFor_replicate_trace :
    ∀ (n : Nat) (d a : Nat),
      (waitForGeminiFileActive (List.replicate n procFile) d a).1 =
        (List.range n).map (fun i => Event.fileProcessing (a + i) (delayIterFrom d i)) := by
  intro n
  induction n with
  | zero => intro d a; simp [waitForGeminiFileActive]
  | succ k ih =>
    intro d a
    rw [List.replicate_succ]
    rw [waitFor_cons_processing procFile _ _ _ (by rfl)]
    simp only [List.range_succ_eq_map, List.map_cons, List.map_map]
    rw [ih]
    refine congrArg₂ List.cons rfl ?_
    refine List.map_congr_left ?_
    intro i _
    simp only [Function.comp]
    rw [delayIterFrom_shift]
    congr 1
    omega

/-- Claim C5: starting from the initial backoff state of delay 100 ms and
attempt 1, the delay sequence produced by doubling with the 20000 ms cap is
100, 200, 400, 800, ...; the delay never decreases and never exceeds
20000 ms, the attempt counter increases by exactly one per unsuccessful
poll, and the polling loop's emitted events follow exactly this iterate. -/
theorem C5_theorem :
    backoffIter 0 = (100, 1) ∧ backoffIter 1 = (200, 2) ∧
    backoffIter 2 = (400, 3) ∧ backoffIter 3 = (800, 4) ∧
    (∀ n, (backoffIter n).1 ≤ 20000) ∧
    (∀ n, (backoffIter n).1 ≤ (backoffIter (n + 1)).1) ∧
    (∀ n, (backoffIter n).2 = n + 1) ∧
    (∀ n,
      (waitForGeminiFileActive (List.replicate n procFile) FILE_ACTIVE_POLL_INITIAL_MS 1).1 =
        (List.range n).map (fun i => Event.fileProcessing (i + 1) (backoffIter i).1)) := by
  refine ⟨by decide, by decide, by decide, by decide, backoffIter_le, backoffIter_mono,
    backoffIter_attempt, ?_⟩
  intro n
  rw [waitFor_replicate_trace]
  refine List.map_congr_left ?_
  intro i _
  rw [backoffIter_delay]
  congr 1
  omega

/-- Claim C6: the response parser is a total function, and whenever neither
the fence-stripped text nor its first-brace-to-last-brace slice parses as
JSON, it returns the cleaned text as transcript, an empty notes list, and
the same cleaned text again as the raw-response fallback. -/
theorem C6_theorem (rawText : Str)
    (h1 : tryParse (stripCodeFence rawText) = none)
    (h2 : (braceExtract (stripCodeFence rawText)).bind tryParse = none) :
    parseGeminiText rawText =
      ⟨stripCodeFence rawText, [], some (stripCodeFence rawText)⟩ := by
  have hid := stripCodeFence_trimL rawText
  simp only [parseGeminiText, h1]
  cases hb : braceExtract (stripCodeFence rawText) with
  | none => simp [hb, hid]
  | some ex =>
    rw [hb] at h2
    simp only [Option.some_bind] at h2
    simp [hb, h2, hid]

/-- Witness for C6 at a concrete unparsable input. -/
theorem C6_witness :
    parseGeminiText (strChars "not json at all") =
      ⟨strChars "not json at all", [], some (strChars "not json at all")⟩ :=
  (C6_theorem (strChars "not json at all") (by decide) (by decide)).trans (by decide)

/-- Claim C7 (corrected): for every raw text that parses, after optional
fence stripping, as a JSON object whose notes field is a multi-line string
and whose transcript field is absent, null or a string, the parser
normalizes the notes by splitting on newlines, stripping leading dashes,
bullets and whitespace from each line and dropping the empty lines, with no
raw-response fallback; in particular the fenced spec example yields the two
bullet-free notes.  A non-string transcript field, by contrast, makes the
structured parse throw, so the parser falls back with empty notes. -/
theorem C7_theorem :
    (∀ (rawText : Str) (j : Json) (ns : Str),
      jsonParse (stripCodeFence rawText) = some j →
      jsGetField j (strChars "notes") = some (.str ns) →
      (jsGetField j (strChars "transcript") = none ∨
        jsGetField j (strChars "transcript") = some .null ∨
        (∃ s, jsGetField j (strChars "transcript") = some (.str s))) →
      (parseGeminiText rawText).notes =
        ((splitOnNl ns).map (fun line => trimL (line.dropWhile isBulletLead))).filter
          (fun s => !s.isEmpty) ∧
      (parseGeminiText rawText).rawResponse = none) ∧
    parseGeminiText c7input = ⟨strChars "x", [strChars "one", strChars "two"], none⟩ ∧
    normalizeNotes (some (.str (strChars "• alpha\n - beta\n\n"))) =
      [strChars "alpha", strChars "beta"] := by
  refine ⟨?_, by decide, by decide⟩
  intro rawText j ns hj hn htr
  have hobj : ∃ fields, j = Json.obj fields := by
    cases j
    case obj fields => exact ⟨fields, rfl⟩
    all_goals simp [jsGetField] at hn
  obtain ⟨fields, rfl⟩ := hobj
  have htp : ∃ tr : Str, tryParse (stripCodeFence rawText) =
      some ⟨tr, normalizeNotes (some (.str ns))⟩ := by
    rcases htr with h | h | ⟨s, h⟩
    · exact ⟨[], by simp only [tryParse, hj, h, hn]⟩
    · exact ⟨[], by simp only [tryParse, hj, h, hn]⟩
    · exact ⟨trimL s, by simp only [tryParse, hj, h, hn]⟩
  obtain ⟨tr, htp⟩ := htp
  constructor
  all_goals simp [parseGeminiText, htp, normalizeNotes]

/-- Counterexample to C7 as stated: a JSON object whose notes field is a
multi-line bulleted string but whose transcript field is a number is not
normalized; the structured parse throws on the numeric transcript, the
brace-extract re-parse throws identically, and the parser falls back with
empty notes and the raw-response copy of the whole text. -/
theorem C7_counterexample :
    parseGeminiText c7badInput = ⟨c7badInput, [], some c7badInput⟩ ∧
    (parseGeminiText c7badInput).notes ≠ [strChars "one", strChars "two"] := by
  decide

/-- Witness for C7 applying the universal clause at the fenced example. -/
theorem C7_witness :
    (parseGeminiText c7input).notes =
      ((splitOnNl (strChars "- one\n- two")).map
        (fun line => trimL (line.dropWhile isBulletLead))).filter (fun s => !s.isEmpty) ∧
    (parseGeminiText c7input).rawResponse = none :=
  C7_theorem.1 c7input
    (Json.obj [(strChars "transcript", Json.str (strChars "x")),
      (strChars "notes", Json.str (strChars "- one\n- two"))])
    (strChars "- one\n- two")
    rfl rfl (Or.inr (Or.inr ⟨strChars "x", rfl⟩))

/-- Claim C1 (corrected): the streaming POST route's preparer gives a
present binary payload precedence over the URL string, but the page's
submit flow — the component that owns the upload and poll path — gives a
non-empty URL string precedence over the chosen file: with both present it
produces a Remote source, emits no upload events and never runs the upload
or poll path. -/
theorem C1_theorem (u key url : Str) (f : FileInfo) (script : RemoteScript) :
    (startsWithL (strChars "video/") f.type = true →
      f.size ≤ MAX_UPLOAD_BYTES →
      preparePostSource (some u) (some f) =
        .ok (.upload f.name (if f.type = [] then strChars "video/mp4" else f.type) f.size)) ∧
    (trimL key ≠ [] → trimL url ≠ [] → isValidHttpUrl (trimL url) = true →
      handleSubmit ⟨key, url, some f⟩ script =
        ([], genOutcome (.youtube (trimL url)) script)) := by
  constructor
  · intro hv hs
    have hs' : ¬ f.size > MAX_UPLOAD_BYTES := by omega
    unfold preparePostSource
    simp [hv, hs']
  · intro hk hu hvu
    unfold handleSubmit
    simp [hk, hu, hvu]

/-- Counterexample to C1 as stated: with both a valid URL and a valid
payload present, the page's submit flow produces a Remote source, emits no
events and ignores the payload. -/
theorem C1_counterexample :
    handleSubmit submitBoth demoScript =
      ([], .done ⟨.youtube (strChars "https://example.com/v"), strChars "t", [], none⟩) := by
  decide

/-- Witness for C1 at concrete inputs exercising both conjuncts. -/
theorem C1_witness :
    preparePostSource (some (strChars "https://example.com/v")) (some sampleVideo) =
      .ok (.upload sampleVideo.name
        (if sampleVideo.type = [] then strChars "video/mp4" else sampleVideo.type)
        sampleVideo.size) ∧
    handleSubmit ⟨strChars "key", strChars "https://example.com/v", some sampleVideo⟩ demoScript =
      ([], genOutcome (.youtube (trimL (strChars "https://example.com/v"))) demoScript) :=
  ⟨(C1_theorem (strChars "https://example.com/v") (strChars "key")
      (strChars "https://example.com/v") sampleVideo demoScript).1 (by decide) (by decide),
   (C1_theorem (strChars "https://example.com/v") (strChars "key")
      (strChars "https://example.com/v") sampleVideo demoScript).2
      (by decide) (by decide) (by decide)⟩

/-- Claim C2 (corrected): with a processing upload handle whose first poll
reports PROCESSING and second reports ACTIVE, the submit flow emits exactly
one file-processing event, with attempt 1 and the initial delay, before the
generate-start event — and no file-active event at all: the poller returns
the handle without emitting one. -/
theorem C2_theorem (key url : Str) (f : FileInfo) (script : RemoteScript)
    (p1 p2 : GeminiFile)
    (hk : trimL key ≠ []) (hu : trimL url = [])
    (hv : startsWithL (strChars "video/") f.type = true)
    (hs : f.size ≤ 2 * 1024 * 1024 * 1024)
    (h1 : script.upload.uri ≠ []) (h2 : script.upload.mimeType ≠ [])
    (h3 : script.upload.name ≠ [])
    (hst : script.upload.state = some (strChars "PROCESSING"))
    (hp : script.polls = [p1, p2])
    (hp1 : p1.state = some (strChars "PROCESSING"))
    (hp2 : p2.state = some (strChars "ACTIVE")) :
    (handleSubmit ⟨key, url, some f⟩ script).1 =
      [Event.uploadStart, Event.uploadComplete,
        Event.fileProcessing 1 FILE_ACTIVE_POLL_INITIAL_MS, Event.generateStart] ∧
    Event.fileActive ∉ (handleSubmit ⟨key, url, some f⟩ script).1 := by
  have hmain : (handleSubmit ⟨key, url, some f⟩ script).1 =
      [Event.uploadStart, Event.uploadComplete,
        Event.fileProcessing 1 FILE_ACTIVE_POLL_INITIAL_MS, Event.generateStart] := by
    rw [handleSubmit_upload _ _ _ _ hk hu, filePhase_valid _ _ hv hs h1 h2 h3, if_pos hst, hp,
      waitFor_cons_processing p1 _ _ _ hp1, waitFor_cons_active p2 _ _ _ hp2]
    rfl
  exact ⟨hmain, by rw [hmain]; decide⟩

/-- Counterexample to C2 as stated: the concrete processing-then-active
scenario emits upload-start, upload-complete, one file-processing event and
generate-start, and no file-active event anywhere. -/
theorem C2_counterexample :
    (handleSubmit submitUpload processingScript).1 =
      [Event.uploadStart, Event.uploadComplete, Event.fileProcessing 1 100,
        Event.generateStart] ∧
    Event.fileActive ∉ (handleSubmit submitUpload processingScript).1 := by
  decide

/-- Witness for C2 at the concrete processing-then-active script. -/
theorem C2_witness :
    (handleSubmit ⟨strChars "key", [], some sampleVideo⟩ processingScript).1 =
      [Event.uploadStart, Event.uploadComplete,
        Event.fileProcessing 1 FILE_ACTIVE_POLL_INITIAL_MS, Event.generateStart] ∧
    Event.fileActive ∉ (handleSubmit ⟨strChars "key", [], some sampleVideo⟩ processingScript).1 :=
  C2_theorem (strChars "key") [] sampleVideo processingScript procFile activeFile
    (by decide) (by decide) (by decide) (by decide) (by decide) (by decide) (by decide)
    (by decide) (by decide) (by decide) (by decide)

/-- Claim C3 (corrected): after a completed upload with full metadata the
submit flow runs the backoff poller exactly when the handle state is
PROCESSING; every other state — ACTIVE, but equally FAILED or anything
else — skips polling and proceeds straight to the generation request
instead of terminating with the remote-processing failure. -/
theorem C3_theorem (key url : Str) (f : FileInfo) (script : RemoteScript)
    (hk : trimL key ≠ []) (hu : trimL url = [])
    (hv : startsWithL (strChars "video/") f.type = true)
    (hs : f.size ≤ 2 * 1024 * 1024 * 1024)
    (h1 : script.upload.uri ≠ []) (h2 : script.upload.mimeType ≠ [])
    (h3 : script.upload.name ≠ []) :
    (script.upload.state = some (strChars "PROCESSING") →
      handleSubmit ⟨key, url, some f⟩ script =
        (let poll := waitForGeminiFileActive script.polls FILE_ACTIVE_POLL_INITIAL_MS 1
         match poll.2 with
         | .pending => (Event.uploadStart :: Event.uploadComplete :: poll.1, .pending)
         | .failed e => (Event.uploadStart :: Event.uploadComplete :: poll.1, .failed e)
         | .active _ =>
           (Event.uploadStart :: Event.uploadComplete :: poll.1 ++ [Event.generateStart],
             genOutcome (.upload f.name) script))) ∧
    (script.upload.state ≠ some (strChars "PROCESSING") →
      handleSubmit ⟨key, url, some f⟩ script =
        ([Event.uploadStart, Event.uploadComplete, Event.generateStart],
          genOutcome (.upload f.name) script)) := by
  constructor
  · intro hst
    rw [handleSubmit_upload _ _ _ _ hk hu, filePhase_valid _ _ hv hs h1 h2 h3, if_pos hst]
  · intro hst
    rw [handleSubmit_upload _ _ _ _ hk hu, filePhase_valid _ _ hv hs h1 h2 h3, if_neg hst]

/-- Counterexample to C3 as stated: an upload handle in the FAILED state
skips polling and the run completes the generation request successfully
instead of terminating with the remote-processing failure. -/
theorem C3_counterexample :
    handleSubmit submitUpload failedUploadScript =
      ([Event.uploadStart, Event.uploadComplete, Event.generateStart],
        .done ⟨.upload (strChars "demo.mp4"), strChars "t", [], none⟩) := by
  decide

/-- Witness for C3 at the concrete FAILED upload handle. -/
theorem C3_witness :
    handleSubmit ⟨strChars "key", [], some sampleVideo⟩ failedUploadScript =
      ([Event.uploadStart, Event.uploadComplete, Event.generateStart],
        genOutcome (.upload sampleVideo.name) failedUploadScript) :=
  (C3_theorem (strChars "key") [] sampleVideo failedUploadScript
    (by decide) (by decide) (by decide) (by decide) (by decide) (by decide) (by decide)).2
    (by decide)

/-- Claim C4 (corrected): a status response whose state is present,
non-empty and neither ACTIVE nor PROCESSING makes the poller terminate with
the remote-processing failure carrying the observed state and the
remote-supplied message; but a response with an absent state is treated
like PROCESSING: the poller emits a file-processing event and keeps
polling. -/
theorem C4_theorem (f : GeminiFile) (rest : List GeminiFile) (d a : Nat) (s : Str) :
    (f.state = some s → s ≠ [] → s ≠ strChars "ACTIVE" → s ≠ strChars "PROCESSING" →
      waitForGeminiFileActive (f :: rest) d a =
        ([], .failed (.remoteProcessingFailed s
          (f.errorMessage.getD (strChars "Unknown error"))))) ∧
    (f.state = none →
      waitForGeminiFileActive (f :: rest) d a =
        (Event.fileProcessing a d ::
            (waitForGeminiFileActive rest (min (d * 2) FILE_ACTIVE_POLL_MAX_MS) (a + 1)).1,
          (waitForGeminiFileActive rest (min (d * 2) FILE_ACTIVE_POLL_MAX_MS) (a + 1)).2)) :=
  ⟨fun hstate hne hact hproc => waitFor_cons_failed f rest d a s hstate hne hact hproc,
   fun h => waitFor_cons_nostate f rest d a h⟩

/-- Counterexample to C4 as stated: a response with an absent state does not
fail the poll; the loop emits a file-processing event and keeps polling,
reaching the active handle on the next response. -/
theorem C4_counterexample :
    waitForGeminiFileActive [noStateFile, activeFile] 100 1 =
      ([Event.fileProcessing 1 100], .active activeFile) := by
  decide

/-- Witness for C4 at a concrete FAILED status response. -/
theorem C4_witness :
    waitForGeminiFileActive [failedFile] 100 1 =
      ([], .failed (.remoteProcessingFailed (strChars "FAILED")
        (failedFile.errorMessage.getD (strChars "Unknown error")))) :=
  (C4_theorem failedFile [] 100 1 (strChars "FAILED")).1
    (by decide) (by decide) (by decide) (by decide)

/-- A submit run over a payload within the size bound never fails with the
too-large error: no later stage produces that error. -/
lemma handleSubmit_upload_no_tooLarge (key url : Str) (f : FileInfo) (script : RemoteScript)
    (hk : trimL key ≠ []) (hu : trimL url = [])
    (hs : f.size ≤ 2 * 1024 * 1024 * 1024) :
    (handleSubmit ⟨key, url, some f⟩ script).2 ≠ RunOutcome.failed RunError.tooLarge := by
  rw [handleSubmit_upload _ _ _ _ hk hu]
  unfold filePhase
  intro h
  split at h
  · simp at h
  · split at h
    · next hcond => omega
    · simp only at h
      split at h
      · simp at h
      · split at h
        · split at h
          · simp at h
          · next e heq =>
            injection h with h
            subst h
            exact waitFor_no_tooLarge _ _ _ heq
          · simp only at h
            exact genOutcome_no_tooLarge _ _ h
        · simp only at h
          exact genOutcome_no_tooLarge _ _ h

/-- Claim C8: for a video payload the submit flow fails with the too-large
error exactly when the size strictly exceeds 2 GiB, and the POST route's
preparer enforces the same strict bound; a payload of exactly 2 GiB passes
the size check. -/
theorem C8_theorem (key url : Str) (f : FileInfo) (script : RemoteScript)
    (hk : trimL key ≠ []) (hu : trimL url = [])
    (hv : startsWithL (strChars "video/") f.type = true) :
    ((handleSubmit ⟨key, url, some f⟩ script).2 = RunOutcome.failed RunError.tooLarge ↔
      f.size > 2 * 1024 * 1024 * 1024) ∧
    (∀ u : Str,
      (preparePostSource (some u) (some f) = .error .tooLarge ↔ f.size > MAX_UPLOAD_BYTES)) := by
  constructor
  · constructor
    · intro h
      by_contra hno
      exact handleSubmit_upload_no_tooLarge key url f script hk hu (by omega) h
    · intro hgt
      rw [handleSubmit_upload _ _ _ _ hk hu]
      unfold filePhase
      simp [hv, hgt]
  · intro u
    constructor
    · intro h
      by_contra hno
      unfold preparePostSource at h
      simp [hv, hno] at h
    · intro hgt
      unfold preparePostSource
      simp [hv, hgt]

/-- Witness for C8: a video payload of exactly 2 GiB passes the size check
in both the submit flow and the POST preparer. -/
theorem C8_witness :
    (handleSubmit ⟨strChars "key", [], some boundaryFile⟩ demoScript).2 ≠
      RunOutcome.failed RunError.tooLarge ∧
    preparePostSource (some []) (some boundaryFile) ≠ Except.error RunError.tooLarge := by
  have h := C8_theorem (strChars "key") [] boundaryFile demoScript
    (by decide) (by decide) (by decide)
  constructor
  · intro hc
    exact absurd (h.1.mp hc) (by decide)
  · intro hc
    exact absurd ((h.2 []).mp hc) (by decide)

/-- Claim C9 (corrected): a run whose source is a URL appends no activity
events at all — none of the upload or file events, and no generate-start or
generate-received event either, since the submit flow only appends activity
events on the file branch. -/
theorem C9_theorem (inp : SubmitInput) (script : RemoteScript)
    (hu : trimL inp.videoUrl ≠ []) :
    (handleSubmit inp script).1 = [] := by
  unfold handleSubmit
  by_cases hk : trimL inp.apiKey = []
  · simp [hk]
  · simp [hk, hu]
    split <;> rfl

/-- Counterexample to C9 as stated: a concrete Remote run emits no events,
so in particular neither a generate-start nor a generate-received status
event is ever emitted. -/
theorem C9_counterexample :
    (handleSubmit submitRemote demoScript).1 = [] ∧
    Event.generateStart ∉ (handleSubmit submitRemote demoScript).1 ∧
    Event.generateReceived ∉ (handleSubmit submitRemote demoScript).1 := by
  decide

/-- Witness for C9 at a Remote run that also carries a payload. -/
theorem C9_witness :
    (handleSubmit submitBoth demoScript).1 = [] :=
  C9_theorem submitBoth demoScript (by decide)

/-- Claim C10: a non-video MIME type is rejected with the unsupported-type
error before the size check ever runs, in both the submit flow and the POST
route's preparer: even an oversized non-video payload reports the
unsupported-type error, never the too-large one. -/
theorem C10_theorem (key url : Str) (f : FileInfo) (script : RemoteScript)
    (hk : trimL key ≠ []) (hu : trimL url = [])
    (hv : startsWithL (strChars "video/") f.type = false) :
    handleSubmit ⟨key, url, some f⟩ script = ([], .failed (.unsupportedType f.type)) ∧
    ∀ u : Str, preparePostSource (some u) (some f) = .error (.unsupportedType f.type) := by
  constructor
  · rw [handleSubmit_upload _ _ _ _ hk hu]
    unfold filePhase
    simp [hv]
  · intro u
    unfold preparePostSource
    simp [hv]

/-- Witness for C10 at an oversized non-video payload. -/
theorem C10_witness :
    handleSubmit ⟨strChars "key", [], some bigPdf⟩ demoScript =
      ([], .failed (.unsupportedType bigPdf.type)) :=
  (C10_theorem (strChars "key") [] bigPdf demoScript (by decide) (by decide) (by decide)).1
